import Mathlib

/-!
Verification of the lemmy-media-scraper core against its specification.

The Go source is shallowly embedded: pure helper functions of the
downloader, tag manager, config and database layers become Lean
functions over `String`, `Int`, `Nat` and lists; the stateful download
pipeline becomes an explicit state-passing function over a catalog/disk
store; external effects (the HTTP response, the SQL engine, SHA-256)
are modeled as explicit inputs.

Go string primitives (strings.ToLower, strings.Contains, strings
suffix tests, single-character strings.ReplaceAll, strconv.ParseInt,
path/filepath.Ext and Base) are re-implemented here by structural
recursion over the character list of a `String`, so every definition
evaluates under the kernel.
-/

deriving instance DecidableEq for Except

namespace Scraper

/-- Go strings.ToLower on one character (ASCII range; characters the
tag normalizer or media-type matcher cares about are all ASCII). -/
def charToLower (c : Char) : Char :=
  if 65 ≤ c.toNat ∧ c.toNat ≤ 90 then Char.ofNat (c.toNat + 32) else c

/-- Go strings.ToLower over a whole string. -/
def lowerStr (s : String) : String :=
  String.mk (s.data.map charToLower)

/-- Go strings.Contains: does the haystack contain the needle as a
contiguous substring? -/
def containsSub (hay needle : String) : Bool :=
  hay.data.tails.any (fun t => needle.data.isPrefixOf t)

/-- Go strings.HasSuffix / String.endsWith. -/
def endsWithStr (s suffix : String) : Bool :=
  suffix.data.isSuffixOf s.data

/-- Go strings.HasPrefix. -/
def startsWithStr (s pre : String) : Bool :=
  pre.data.isPrefixOf s.data

/-- Go strings.ReplaceAll for a single-character pattern and
single-character replacement (the only shape the source uses). -/
def replaceChar (s : String) (a b : Char) : String :=
  String.mk (s.data.map (fun c => if c = a then b else c))

/-- Helper for `filepathExt`: scan the reversed character list of a path,
accumulating until the last dot after the last slash is found (Go
path/filepath.Ext scans backwards, stopping at a path separator). -/
def extFromRev (acc : List Char) : List Char → Option (List Char)
  | [] => none
  | c :: rest =>
    if c = '/' then none
    else if c = '.' then some ('.' :: acc)
    else extFromRev (c :: acc) rest

/-- Go path/filepath.Ext: the suffix beginning at the final dot in the
final slash-separated element of the path; empty if there is no dot. -/
def filepathExt (p : String) : String :=
  match extFromRev [] p.data.reverse with
  | some l => String.mk l
  | none => ""

/-- Drop the leading slashes of a character list (used on the reversed
path, so this strips trailing slashes of the path). -/
def dropLeadingSlashes : List Char → List Char
  | [] => []
  | c :: rest => if c = '/' then dropLeadingSlashes rest else c :: rest

/-- Take the characters of the final path element from a reversed
character list (everything up to the first slash). -/
def takeUntilSlash : List Char → List Char
  | [] => []
  | c :: rest => if c = '/' then [] else c :: takeUntilSlash rest

/-- Go path/filepath.Base: last element of the path after trailing
slashes are removed; "." for the empty path, "/" if the path is all
slashes. -/
def filepathBase (p : String) : String :=
  if p = "" then "."
  else
    let stripped := dropLeadingSlashes p.data.reverse
    if stripped = [] then "/"
    else String.mk (takeUntilSlash stripped).reverse

/-- Decimal digit test on a character (ASCII). -/
def isDigitChar (c : Char) : Bool :=
  Nat.ble 48 c.toNat && Nat.ble c.toNat 57

/-- Go strconv.ParseInt(s, 10, 64): optional sign, nonempty decimal
digits, result within the signed 64-bit range; `none` models a parse
error. -/
def parseInt64 (s : String) : Option Int :=
  let signed : Int × List Char :=
    match s.data with
    | '-' :: rest => (-1, rest)
    | '+' :: rest => (1, rest)
    | l => (1, l)
  let digits := signed.2
  if digits = [] then none
  else if digits.all isDigitChar then
    let mag : Nat := digits.foldl (fun a c => a * 10 + (c.toNat - 48)) 0
    let v : Int := signed.1 * (mag : Int)
    if -(2 ^ 63) ≤ v ∧ v ≤ 2 ^ 63 - 1 then some v else none
  else none

/-! ## Downloader: media kind, extension, path sanitizing (part_003) -/

/-- determineMediaType (downloader): media kind from Content-Type and
URL. The image test (Content-Type containing "image" or a known image
suffix of the lowercased URL) runs before the video test. -/
def determineMediaType (contentType url : String) : String :=
  let ct := lowerStr contentType
  let u := lowerStr url
  if containsSub ct "image" || endsWithStr u ".jpg" || endsWithStr u ".jpeg" ||
     endsWithStr u ".png" || endsWithStr u ".gif" ||
     endsWithStr u ".webp" || endsWithStr u ".bmp" then "image"
  else if containsSub ct "video" || endsWithStr u ".mp4" || endsWithStr u ".webm" ||
     endsWithStr u ".mov" || endsWithStr u ".avi" ||
     endsWithStr u ".mkv" || endsWithStr u ".m4v" then "video"
  else "other"

/-- First element of Go strings.Split(s, "?"): the characters up to the
first question mark. -/
def stripQuery (s : String) : String :=
  String.mk (s.data.takeWhile (fun c => c ≠ '?'))

/-- getFileExtension (downloader): extension from the URL when it has
one (query part stripped), otherwise from the Content-Type, defaulting
to ".bin". -/
def getFileExtension (contentType url : String) : String :=
  let urlExt := filepathExt url
  if urlExt ≠ "" then
    stripQuery urlExt
  else
    let ct := lowerStr contentType
    if containsSub ct "jpeg" then ".jpg"
    else if containsSub ct "png" then ".png"
    else if containsSub ct "gif" then ".gif"
    else if containsSub ct "webp" then ".webp"
    else if containsSub ct "mp4" then ".mp4"
    else if containsSub ct "webm" then ".webm"
    else ".bin"

/-- sanitizePath (downloader): replace each filesystem-hostile
character with an underscore (the source replaces the one-character
strings / \ : * ? " < > | one after another). -/
def sanitizePath (path : String) : String :=
  let invalid : List Char := ['/', '\\', ':', '*', '?', '"', '<', '>', '|']
  invalid.foldl (fun acc ch => replaceChar acc ch '_') path

/-! ## Downloader: URL validation (part_003, validateURL) -/

/-- A URL already parsed by Go's net/url.Parse (the parser itself is
standard-library code outside this repository; validateURL receives
its output). `host` is parsedURL.Host, `hostname` is
parsedURL.Hostname() (host without port or brackets). -/
structure ParsedURL where
  scheme : String
  host : String
  hostname : String
deriving DecidableEq, Repr

/-- The error cases validateURL can report. -/
inductive UrlError where
  | badScheme
  | noHost
  | localhostBlocked
  | privateRange
deriving DecidableEq, Repr

/-- The exact-match blocklist of local addresses in validateURL. -/
def localAddresses : List String :=
  ["localhost", "127.0.0.1", "0.0.0.0", "[::1]", "::1"]

/-- The hostname-prefix blocklist of private ranges in validateURL. -/
def privateRanges : List String :=
  ["10.", "172.16.", "172.17.", "172.18.", "172.19.", "172.20.",
   "172.21.", "172.22.", "172.23.", "172.24.", "172.25.", "172.26.",
   "172.27.", "172.28.", "172.29.", "172.30.", "172.31.",
   "192.168.", "169.254.", "fc00:", "fd"]

/-- validateURL (downloader): scheme must be http or https, host must
be nonempty, and the lowercased hostname must neither equal a local
address nor begin with a private-range prefix. Purely string-based --
no name resolution happens anywhere in the source function. -/
def validateURL (u : ParsedURL) : Except UrlError Unit :=
  if u.scheme ≠ "http" ∧ u.scheme ≠ "https" then .error .badScheme
  else if u.host = "" then .error .noHost
  else
    let hostname := lowerStr u.hostname
    if localAddresses.any (fun l => hostname = l) then .error .localhostBlocked
    else if privateRanges.any (fun p => startsWithStr hostname p) then .error .privateRange
    else .ok ()

/-! ## Tag manager (internal/tags/manager.go) -/

/-- Character class kept by the tag normalizer: [a-z0-9-]. -/
def isTagChar (c : Char) : Bool :=
  (Nat.ble 97 c.toNat && Nat.ble c.toNat 122) ||
  (Nat.ble 48 c.toNat && Nat.ble c.toNat 57) || c = '-'

/-- Go unicode.IsSpace for the characters TrimSpace meets in practice
(ASCII whitespace plus NEL and NBSP). -/
def isSpaceGo (c : Char) : Bool :=
  c.toNat = 32 || c.toNat = 9 || c.toNat = 10 || c.toNat = 11 ||
  c.toNat = 12 || c.toNat = 13 || c.toNat = 133 || c.toNat = 160

/-- Go strings.TrimSpace. -/
def trimSpace (s : String) : String :=
  String.mk (((s.data.dropWhile isSpaceGo).reverse.dropWhile isSpaceGo).reverse)

/-- normalizeTagName (tags/manager.go): lowercase, trim, map space and
underscore to hyphen, drop every character outside [a-z0-9-]. -/
def normalizeTagName (name : String) : String :=
  let name := lowerStr name
  let name := trimSpace name
  let name := replaceChar name ' ' '-'
  let name := replaceChar name '_' '-'
  String.mk (name.data.filter isTagChar)

/-- UTF-8 byte count of one character (Go len() counts bytes). -/
def charUtf8Len (c : Char) : Nat :=
  if c.toNat < 128 then 1
  else if c.toNat < 2048 then 2
  else if c.toNat < 65536 then 3
  else 4

/-- Go len(s): the UTF-8 byte length of a string. -/
def goStrLen (s : String) : Nat :=
  s.data.foldl (fun n c => n + charUtf8Len c) 0

/-- The stored name an auto-generated tag gets, if any: AutoTagMedia
skips a raw classifier tag when it is empty or its byte length is
below 2 (the check runs on the raw name, before normalization), and
otherwise looks up or creates a tag under the normalized name. -/
def autoTagStoredName (raw : String) : Option String :=
  if raw = "" ∨ goStrLen raw < 2 then none
  else some (normalizeTagName raw)

/-- The stored name CreateUserTag uses: it normalizes and then looks
up or creates -- there is no length check in this path. -/
def createUserTagStoredName (name : String) : String :=
  normalizeTagName name

/-- The web handler for POST /api/tags (part_002, handleTags): rejects
only an empty raw name, then stores via CreateUserTag. -/
def handleCreateTagStoredName (name : String) : Option String :=
  if name = "" then none else some (createUserTagStoredName name)

/-- The property the spec claims of every stored tag name: it matches
[a-z0-9-]{2,}. -/
def matchesTagPattern (s : String) : Bool :=
  Nat.ble 2 s.data.length && s.data.all isTagChar

/-! ## Config defaults (internal/config/config.go, SetDefaults) -/

/-- The scraper section of the configuration (Go ints become `Int`). -/
structure ScraperConfig where
  maxPostsPerRun : Int
  stopAtSeenPosts : Bool
  skipSeenPosts : Bool
  enablePagination : Bool
  seenPostsThreshold : Int
  sortType : String
  includeImages : Bool
  includeVideos : Bool
  includeOtherMedia : Bool
deriving DecidableEq, Repr

/-- normalizeSortType (config.go): map the known user-friendly sort
names onto the API spelling, leave everything else untouched. -/
def normalizeSortType (sort : String) : String :=
  let sortMap : List (String × String) :=
    [("hot", "Hot"), ("Hot", "Hot"), ("new", "New"), ("New", "New"),
     ("topday", "TopDay"), ("TopDay", "TopDay"),
     ("topweek", "TopWeek"), ("TopWeek", "TopWeek"),
     ("topmonth", "TopMonth"), ("TopMonth", "TopMonth"),
     ("topyear", "TopYear"), ("TopYear", "TopYear"),
     ("topall", "TopAll"), ("TopAll", "TopAll"),
     ("active", "Active"), ("Active", "Active")]
  match sortMap.find? (fun p => p.1 = sort) with
  | some p => p.2
  | none => sort

/-- The scraper-relevant part of Config.SetDefaults, in source order:
zero max-posts defaults to 50, zero seen-threshold defaults to 5, a
value above 50 is clamped to 50 when pagination is disabled, empty
sort defaults to "Hot" and is normalized, and the include flags all
flip to true when all three are false. -/
def setDefaultsScraper (c : ScraperConfig) : ScraperConfig :=
  let c := if c.maxPostsPerRun = 0 then { c with maxPostsPerRun := 50 } else c
  let c := if c.seenPostsThreshold = 0 then { c with seenPostsThreshold := 5 } else c
  let c := if ¬c.enablePagination ∧ c.maxPostsPerRun > 50 then
             { c with maxPostsPerRun := 50 } else c
  let c := if c.sortType = "" then { c with sortType := "Hot" } else c
  let c := { c with sortType := normalizeSortType c.sortType }
  if ¬c.includeImages ∧ ¬c.includeVideos ∧ ¬c.includeOtherMedia then
    { c with includeImages := true, includeVideos := true, includeOtherMedia := true }
  else c

/-! ## Catalog store: sort whitelist (database.go, GetMediaWithFilters) -/

/-- The filter options GetMediaWithFilters receives. -/
structure MediaFilter where
  community : String
  mediaType : String
  sortBy : String
  sortOrder : String
  limit : Int
  offset : Int
deriving DecidableEq, Repr

/-- The closed whitelist of sort fields (the Go map with true values). -/
def allowedSortFields : List String :=
  ["downloaded_at", "post_created", "file_size", "post_score"]

/-- The sort field GetMediaWithFilters actually interpolates into the
query: a non-whitelisted request is silently coerced. -/
def effectiveSortBy (sortBy : String) : String :=
  if allowedSortFields.any (fun f => f = sortBy) then sortBy else "downloaded_at"

/-- The sort order GetMediaWithFilters actually interpolates: anything
other than exactly "ASC" or "DESC" becomes "DESC". -/
def effectiveSortOrder (sortOrder : String) : String :=
  if sortOrder ≠ "ASC" ∧ sortOrder ≠ "DESC" then "DESC" else sortOrder

/-- The ORDER BY fragment appended to the media query. -/
def mediaOrderClause (f : MediaFilter) : String :=
  " ORDER BY " ++ effectiveSortBy f.sortBy ++ " " ++ effectiveSortOrder f.sortOrder ++
  " LIMIT ? OFFSET ?"

/-! ## Catalog store: FTS initialization and search (database.go) -/

/-- The behavior of the underlying SQLite engine during FTS
initialization and search, as far as the Go code can observe it:
which statements succeed, how many media rows exist, and what a
successful MATCH returns. -/
structure SqlEngine where
  ftsCreateOk : Bool
  triggersOk : Bool
  countOk : Bool
  populateOk : Bool
  mediaCount : Nat
  matchRows : List Nat
  matchTotal : Nat
deriving DecidableEq, Repr

/-- initSearchIndex: returns the ftsAvailable flag it leaves behind
and whether it returned a (non-nil) error. A failed virtual-table or
trigger creation, and a failed backfill, each set the flag false but
return nil; only a failed row count returns an error (leaving the
flag as it was). -/
def initSearchIndex (e : SqlEngine) (ftsIn : Bool) : Bool × Bool :=
  if ¬e.ftsCreateOk then (false, false)
  else if ¬e.triggersOk then (false, false)
  else if ¬e.countOk then (ftsIn, true)
  else if e.mediaCount > 0 ∧ ¬e.populateOk then (false, false)
  else (true, false)

/-- The ftsAvailable flag after initSchema: initSchema overwrites the
flag based solely on whether initSearchIndex returned an error --
false on error, true otherwise. -/
def initSchemaFtsFlag (e : SqlEngine) (ftsIn : Bool) : Bool :=
  let r := initSearchIndex e ftsIn
  if r.2 then false else true

/-- The errors SearchMedia can report: the distinct FTS-unavailable
error, or a generic SQL failure from running the MATCH queries. -/
inductive SearchError where
  | searchUnavailable
  | queryFailed
deriving DecidableEq, Repr

/-- SearchMedia: empty query short-circuits to an empty result; a
false ftsAvailable flag yields the distinct unavailable error; with
the flag true the MATCH queries run, failing when the FTS table was
never created. -/
def searchMedia (e : SqlEngine) (ftsAvailable : Bool) (query : String) :
    Except SearchError (List Nat × Nat) :=
  if query = "" then .ok ([], 0)
  else if ¬ftsAvailable then .error .searchUnavailable
  else if ¬e.ftsCreateOk then .error .queryFailed
  else .ok (e.matchRows, e.matchTotal)

/-! ## Download pipeline (part_003, DownloadMedia) -/

/-- The slice of a Lemmy post view DownloadMedia reads. -/
structure PostView where
  postId : Int
  postName : String
  communityName : String
  communityId : Int
  creatorName : String
  creatorId : Int
  score : Int
  published : String
deriving DecidableEq, Repr

/-- A row of the scraped_media table. -/
structure MediaRow where
  postId : Int
  postTitle : String
  communityName : String
  communityId : Int
  authorName : String
  authorId : Int
  mediaURL : String
  mediaHash : String
  fileName : String
  filePath : String
  fileSize : Int
  mediaType : String
  postURL : String
  postScore : Int
  postCreated : String
  downloadedAt : String
deriving DecidableEq, Repr

/-- The observable state DownloadMedia touches: the media table and
the files on disk (path to byte content). -/
structure Store where
  media : List MediaRow
  disk : List (String × List Nat)
deriving DecidableEq, Repr

/-- MediaExists (database.go): is a row with this hash present? -/
def mediaExists (s : Store) (h : String) : Bool :=
  s.media.any (fun m => m.mediaHash = h)

/-- GetMediaByHash (database.go): the first row with this hash, if
any (nil result when absent, mirroring the Go nil,nil return). -/
def getMediaByHash (s : Store) (h : String) : Option MediaRow :=
  s.media.find? (fun m => m.mediaHash = h)

/-- Content of a file on disk, if present. -/
def diskLookup (d : List (String × List Nat)) (p : String) : Option (List Nat) :=
  (d.find? (fun e => e.1 = p)).map (fun e => e.2)

/-- os.WriteFile: create or overwrite. -/
def writeFile (d : List (String × List Nat)) (p : String) (c : List Nat) :
    List (String × List Nat) :=
  if d.any (fun e => e.1 = p) then d.map (fun e => if e.1 = p then (p, c) else e)
  else d ++ [(p, c)]

/-- os.Remove. -/
def removeFile (d : List (String × List Nat)) (p : String) :
    List (String × List Nat) :=
  d.filter (fun e => e.1 ≠ p)

/-- The HTTP response DownloadMedia observes (the Content-Length
header is the raw string; "" means absent, matching Header.Get). -/
structure HttpResponse where
  statusCode : Int
  contentType : String
  contentLength : String
  body : List Nat
deriving DecidableEq, Repr

/-- The environment of one DownloadMedia call: the content digest
(SHA-256 is modeled as an abstract deterministic function of the
bytes), whether the catalog INSERT succeeds, and the wall clock. -/
structure DlEnv where
  hashFn : List Nat → String
  saveOk : Bool
  now : String

/-- The error cases DownloadMedia can report. -/
inductive DlError where
  | emptyURL
  | invalidURL (e : UrlError)
  | httpStatus (code : Int)
  | tooLargeHeader
  | tooLarge
  | saveFailed
deriving DecidableEq, Repr

/-- The 500 MiB ceiling (maxFileSize in the source). -/
def maxFileSize : Nat := 500 * 1024 * 1024

/-- The Content-Length early check: header nonempty, parses as int64,
and the value exceeds the ceiling. -/
def contentLengthOversize (resp : HttpResponse) : Bool :=
  if resp.contentLength ≠ "" then
    match parseInt64 resp.contentLength with
    | some v => v > (maxFileSize : Int)
    | none => false
  else false

/-- The file name DownloadMedia constructs: postID_basename (query
stripped), falling back to postID + extension when the name has no
dot, then sanitized. -/
def mediaFileName (mediaURL : String) (post : PostView) (resp : HttpResponse) : String :=
  let fileExt := getFileExtension resp.contentType mediaURL
  let originalName := stripQuery (filepathBase mediaURL)
  let fileName := toString post.postId ++ "_" ++ originalName
  let fileName := if fileName.data.contains '.' then fileName
                  else toString post.postId ++ fileExt
  sanitizePath fileName

/-- The full path DownloadMedia writes to: base directory, sanitized
community, file name (filepath.Join modeled as "/" concatenation; the
sanitized components contain no separators). -/
def mediaFilePath (baseDir mediaURL : String) (post : PostView) (resp : HttpResponse) : String :=
  baseDir ++ "/" ++ sanitizePath post.communityName ++ "/" ++ mediaFileName mediaURL post resp

/-- DownloadMedia (part_003), step by step in source order: empty-URL
check, SSRF validation, HTTP status, Content-Length guard, capped
body read, size guard, hash, dedup lookup, file write, catalog
insert with file cleanup on insert failure. Directory creation and
the file write itself are modeled as always succeeding; the network
fetch is modeled by passing the response in. Returns the new store
and either an error or the resulting row (`none` mirroring the Go
nil,nil corner when the dedup lookup finds nothing). -/
def downloadMedia (env : DlEnv) (baseDir : String) (s : Store) (mediaURL : String)
    (pu : ParsedURL) (post : PostView) (resp : HttpResponse) :
    Store × Except DlError (Option MediaRow) :=
  if mediaURL = "" then (s, .error .emptyURL)
  else
    match validateURL pu with
    | .error e => (s, .error (.invalidURL e))
    | .ok () =>
      if resp.statusCode ≠ 200 then (s, .error (.httpStatus resp.statusCode))
      else if contentLengthOversize resp then (s, .error .tooLargeHeader)
      else
        let content := resp.body.take (maxFileSize + 1)
        if content.length > maxFileSize then (s, .error .tooLarge)
        else
          let hash := env.hashFn content
          if mediaExists s hash then (s, .ok (getMediaByHash s hash))
          else
            let filePath := mediaFilePath baseDir mediaURL post resp
            let diskW := writeFile s.disk filePath content
            let row : MediaRow :=
              { postId := post.postId, postTitle := post.postName,
                communityName := post.communityName, communityId := post.communityId,
                authorName := post.creatorName, authorId := post.creatorId,
                mediaURL := mediaURL, mediaHash := hash,
                fileName := mediaFileName mediaURL post resp, filePath := filePath,
                fileSize := (content.length : Int),
                mediaType := determineMediaType resp.contentType mediaURL,
                postURL := mediaURL, postScore := post.score,
                postCreated := post.published, downloadedAt := env.now }
            if env.saveOk then
              ({ media := s.media ++ [row], disk := diskW }, .ok (some row))
            else
              ({ media := s.media, disk := removeFile diskW filePath }, .error .saveFailed)

/-! ## Concrete fixtures used to evaluate the pipeline -/

/-- A concrete stand-in digest for tests: deterministic in the bytes. -/
def testHash : List Nat → String := fun c => "h" ++ toString c.length

/-- Environment whose catalog insert succeeds. -/
def testEnvOk : DlEnv := { hashFn := testHash, saveOk := true, now := "t0" }

/-- Environment whose catalog insert fails. -/
def testEnvFail : DlEnv := { hashFn := testHash, saveOk := false, now := "t0" }

/-- A first concrete post view. -/
def testPostA : PostView := ⟨7, "Post A", "comm", 1, "alice", 2, 5, "2020"⟩

/-- A second concrete post view. -/
def testPostB : PostView := ⟨8, "Post B", "comm", 1, "bob", 3, 6, "2021"⟩

/-- A small successful image response. -/
def testRespA : HttpResponse := ⟨200, "image/jpeg", "", [1, 2, 3]⟩

/-- The same bytes under a different Content-Type. -/
def testRespB : HttpResponse := ⟨200, "image/png", "", [1, 2, 3]⟩

/-- A response announcing 600000000 bytes in its Content-Length. -/
def testRespBig : HttpResponse := ⟨200, "video/mp4", "600000000", [1]⟩

end Scraper

section ScratchChecks

open Scraper

example : determineMediaType "" "https://example.com/PHOTO.JPG" = "image" := by decide
example : determineMediaType "image/png" "https://example.com/file" = "image" := by decide
example : determineMediaType "application/pdf" "https://example.com/document.pdf" = "other" := by decide
example : determineMediaType "image/png" "https://example.com/video.mp4" = "image" := by decide
example : getFileExtension "" "https://example.com/photo.jpg?size=large" = ".jpg" := by decide
example : getFileExtension "image/jpeg" "https://example.com/file" = ".jpg" := by decide
example : getFileExtension "image/jpeg" "https://example.com/photo.png" = ".png" := by decide
example : getFileExtension "" "https://example.com/file" = ".bin" := by decide
example : sanitizePath "tech/prog:ram*ming?" = "tech_prog_ram_ming_" := by decide
example : filepathBase "https://example.com/photo.jpg" = "photo.jpg" := by decide
example : parseInt64 "524288000" = some 524288000 := by decide
example : validateURL ⟨"https", "fdic.gov", "fdic.gov"⟩ = .error .privateRange := by decide
example : validateURL ⟨"https", "example.com", "example.com"⟩ = .ok () := by decide
example : validateURL ⟨"javascript", "x", "x"⟩ = .error .badScheme := by decide
example : validateURL ⟨"http", "localhost:8080", "localhost"⟩ = .error .localhostBlocked := by decide
example : normalizeTagName "  Beach Sunset  " = "beach-sunset" := by decide
example : normalizeTagName "a." = "a" := by decide
example : handleCreateTagStoredName "x" = some "x" := by decide
example : autoTagStoredName "a." = some "a" := by decide
example : matchesTagPattern "a" = false := by decide
example : normalizeSortType "topweek" = "TopWeek" := by decide
example : (setDefaultsScraper
  { maxPostsPerRun := 20, stopAtSeenPosts := false, skipSeenPosts := false,
    enablePagination := false, seenPostsThreshold := 0, sortType := "",
    includeImages := false, includeVideos := false, includeOtherMedia := false }).maxPostsPerRun = 20 := by decide
example : (setDefaultsScraper
  { maxPostsPerRun := 100, stopAtSeenPosts := false, skipSeenPosts := false,
    enablePagination := false, seenPostsThreshold := 0, sortType := "",
    includeImages := false, includeVideos := false, includeOtherMedia := false }).maxPostsPerRun = 50 := by decide
example : effectiveSortBy "media_hash" = "downloaded_at" := by decide
example : effectiveSortOrder "asc" = "DESC" := by decide
example : initSchemaFtsFlag ⟨false, true, true, true, 0, [], 0⟩ false = true := by decide
example : searchMedia ⟨false, true, true, true, 0, [], 0⟩ true "cat" = .error .queryFailed := by decide
example : searchMedia ⟨false, true, true, true, 0, [], 0⟩ false "" = .ok ([], 0) := by decide
example : contentLengthOversize ⟨200, "", "600000000", []⟩ = true := by decide
example : contentLengthOversize ⟨200, "", "524288000", []⟩ = false := by decide
example :
    (downloadMedia ⟨fun c => "h" ++ toString c.length, true, "t0"⟩ "base" ⟨[], []⟩
      "https://a.com/x.jpg" ⟨"https", "a.com", "a.com"⟩
      ⟨7, "Post", "comm", 1, "alice", 2, 5, "2020"⟩
      ⟨200, "image/jpeg", "", [1, 2, 3]⟩).1.media.length = 1 := by decide
example :
    (downloadMedia ⟨fun c => "h" ++ toString c.length, true, "t0"⟩ "base" ⟨[], []⟩
      "https://a.com/x.jpg" ⟨"https", "a.com", "a.com"⟩
      ⟨7, "Post", "comm", 1, "alice", 2, 5, "2020"⟩
      ⟨200, "image/jpeg", "", [1, 2, 3]⟩).1.disk =
    [("base/comm/7_x.jpg", [1, 2, 3])] := by decide
example : goStrLen "a." = 2 := by decide

end ScratchChecks

section ClaimTheorems

open Scraper

/-- No local-address literal starts with any private-range prefix, so
the exact-match loop never fires on a hostname that the prefix loop
matches. -/
theorem locals_not_private_prefixed :
    ∀ l ∈ localAddresses, privateRanges.any (fun p => startsWithStr l p) = false := by
  decide

/-- C10: validateURL decides the private-range SSRF check by string
prefixes of the lowercased hostname alone (the source function never
resolves names): every URL with an http(s) scheme, a nonempty host
and a hostname beginning with one of the listed prefixes is rejected
with the private-range error, legitimate public DNS names included. -/
theorem validateURL_rejects_by_hostname_prefix (u : ParsedURL)
    (hs : u.scheme = "http" ∨ u.scheme = "https")
    (hh : ¬u.host = "")
    (hp : privateRanges.any (fun p => startsWithStr (lowerStr u.hostname) p) = true) :
    validateURL u = .error .privateRange := by
  have hloc : localAddresses.any (fun l => lowerStr u.hostname = l) = false := by
    rw [List.any_eq_false]
    intro l hl
    rw [List.any_eq_true] at hp
    obtain ⟨p, hpmem, hpre⟩ := hp
    simp only [decide_eq_true_eq]
    intro he
    rw [he] at hpre
    have := locals_not_private_prefixed l hl
    rw [List.any_eq_false] at this
    exact absurd hpre (by simpa using this p hpmem)
  unfold validateURL
  rcases hs with h | h <;>
    simp [h, hh, hloc, hp]

/-- C10 witness: a URL whose perfectly public hostname fdic.gov merely
starts with the IPv6-private prefix "fd" is rejected. -/
theorem validateURL_rejects_by_hostname_prefix_witness :
    validateURL ⟨"https", "fdic.gov", "fdic.gov"⟩ = .error .privateRange :=
  validateURL_rejects_by_hostname_prefix ⟨"https", "fdic.gov", "fdic.gov"⟩
    (Or.inr rfl) (by decide) (by decide)

/-- C8: the sort field GetMediaWithFilters interpolates is always one
of the four whitelisted columns; any other request is silently coerced
to downloaded_at, and the order is DESC unless the request is exactly
"ASC". -/
theorem getMediaWithFilters_sort_whitelist (f : MediaFilter) :
    effectiveSortBy f.sortBy ∈ allowedSortFields ∧
    (f.sortBy ∉ allowedSortFields → effectiveSortBy f.sortBy = "downloaded_at") ∧
    (f.sortBy ∈ allowedSortFields → effectiveSortBy f.sortBy = f.sortBy) ∧
    (f.sortOrder = "ASC" → effectiveSortOrder f.sortOrder = "ASC") ∧
    (¬f.sortOrder = "ASC" → effectiveSortOrder f.sortOrder = "DESC") ∧
    mediaOrderClause f =
      " ORDER BY " ++ effectiveSortBy f.sortBy ++ " " ++ effectiveSortOrder f.sortOrder ++
      " LIMIT ? OFFSET ?" := by
  refine ⟨?_, ?_, ?_, ?_, ?_, rfl⟩
  · unfold effectiveSortBy
    split
    next h =>
      rw [List.any_eq_true] at h
      obtain ⟨x, hx, he⟩ := h
      rw [decide_eq_true_eq] at he
      rwa [← he]
    next => decide
  · intro hmem
    unfold effectiveSortBy
    rw [if_neg]
    intro hany
    rw [List.any_eq_true] at hany
    obtain ⟨x, hx, he⟩ := hany
    rw [decide_eq_true_eq] at he
    exact hmem (he ▸ hx)
  · intro hmem
    unfold effectiveSortBy
    rw [if_pos]
    rw [List.any_eq_true]
    exact ⟨f.sortBy, hmem, by simp⟩
  · intro h
    unfold effectiveSortOrder
    simp [h]
  · intro h
    unfold effectiveSortOrder
    by_cases hd : f.sortOrder = "DESC"
    · simp [hd]
    · simp [h, hd]

/-- C8 witness: a non-whitelisted field and a lowercase order are
coerced to downloaded_at and DESC. -/
theorem getMediaWithFilters_sort_whitelist_witness :
    effectiveSortBy "media_hash" = "downloaded_at" ∧ effectiveSortOrder "asc" = "DESC" :=
  ⟨(getMediaWithFilters_sort_whitelist ⟨"", "", "media_hash", "asc", 0, 0⟩).2.1 (by decide),
   (getMediaWithFilters_sort_whitelist ⟨"", "", "media_hash", "asc", 0, 0⟩).2.2.2.2.1 (by decide)⟩

/-- C9: SearchMedia short-circuits the empty query to an empty result
with total 0 and no error, before the FTS-availability test runs: the
search-unavailable error can only arise for a nonempty query. -/
theorem searchMedia_empty_query (e : SqlEngine) (fts : Bool) :
    searchMedia e fts "" = .ok ([], 0) ∧
    (∀ q : String, searchMedia e fts q = .error .searchUnavailable → ¬q = "") := by
  constructor
  · unfold searchMedia
    simp
  · intro q h hq
    subst hq
    unfold searchMedia at h
    simp at h

/-- C9 witness: with FTS unavailable, the empty query still succeeds
while "cat" is a nonempty query. -/
theorem searchMedia_empty_query_witness :
    searchMedia ⟨false, true, true, true, 0, [], 0⟩ false "" = .ok ([], 0) ∧
    ¬("cat" : String) = "" :=
  ⟨(searchMedia_empty_query ⟨false, true, true, true, 0, [], 0⟩ false).1,
   (searchMedia_empty_query ⟨false, true, true, true, 0, [], 0⟩ false).2 "cat" (by decide)⟩

/-- C4 counterexample: with pagination disabled and max_posts_per_run
configured to 20, SetDefaults keeps 20 — the value does not become 50
"regardless of the configured value". -/
theorem setDefaults_maxPosts_cex :
    (setDefaultsScraper
      { maxPostsPerRun := 20, stopAtSeenPosts := false, skipSeenPosts := false,
        enablePagination := false, seenPostsThreshold := 0, sortType := "",
        includeImages := false, includeVideos := false,
        includeOtherMedia := false }).maxPostsPerRun = 20 ∧
    ¬(20 : Int) = 50 := by
  decide

/-- C4 (amended): with pagination disabled, SetDefaults leaves
max_posts_per_run at most 50: a configured 0 or a value above 50
becomes exactly 50, and a configured value in 1..50 is kept. -/
theorem setDefaults_maxPosts_clamp (c : ScraperConfig)
    (h : c.enablePagination = false) :
    (setDefaultsScraper c).maxPostsPerRun ≤ 50 ∧
    (c.maxPostsPerRun = 0 ∨ c.maxPostsPerRun > 50 →
      (setDefaultsScraper c).maxPostsPerRun = 50) ∧
    (0 < c.maxPostsPerRun ∧ c.maxPostsPerRun ≤ 50 →
      (setDefaultsScraper c).maxPostsPerRun = c.maxPostsPerRun) := by
  unfold setDefaultsScraper
  simp only [h]
  split_ifs <;> simp_all

/-- C4 witness: a configured 100 with pagination disabled is clamped
to exactly 50. -/
theorem setDefaults_maxPosts_clamp_witness :
    (setDefaultsScraper
      { maxPostsPerRun := 100, stopAtSeenPosts := false, skipSeenPosts := false,
        enablePagination := false, seenPostsThreshold := 0, sortType := "",
        includeImages := false, includeVideos := false,
        includeOtherMedia := false }).maxPostsPerRun = 50 :=
  (setDefaults_maxPosts_clamp _ rfl).2.1 (Or.inr (by decide))

/-- C3 counterexample: the user-tag creation path (POST /api/tags then
CreateUserTag) accepts the input "x", stores the normalized name "x",
and that stored name does not match [a-z0-9-]{2,} — so an input that
normalizes to fewer than 2 characters is not rejected. -/
theorem tagName_short_accepted_cex :
    handleCreateTagStoredName "x" = some "x" ∧ matchesTagPattern "x" = false := by
  decide

/-- C3 (amended): every stored tag name consists solely of characters
from [a-z0-9-], but the 2-character minimum is not enforced on the
stored name: auto-tagging only skips raw classifier names shorter
than 2 bytes before normalization, and user tag creation rejects only
the empty raw name. -/
theorem tagName_normalized_charset (raw : String) :
    (normalizeTagName raw).data.all isTagChar = true ∧
    (∀ n, autoTagStoredName raw = some n →
      n = normalizeTagName raw ∧ 2 ≤ goStrLen raw) ∧
    (∀ n, handleCreateTagStoredName raw = some n →
      n = normalizeTagName raw ∧ ¬raw = "") := by
  refine ⟨?_, ?_, ?_⟩
  · unfold normalizeTagName
    rw [List.all_eq_true]
    intro x hx
    simp only [String.data] at hx
    exact List.of_mem_filter hx
  · intro n hn
    unfold autoTagStoredName at hn
    split at hn
    · exact absurd hn (by simp)
    · next hcond =>
      push_neg at hcond
      exact ⟨(Option.some.injEq _ _ ▸ hn).symm ▸ rfl, by omega⟩
  · intro n hn
    unfold handleCreateTagStoredName createUserTagStoredName at hn
    split at hn
    · exact absurd hn (by simp)
    · next hcond =>
      refine ⟨?_, hcond⟩
      exact (Option.some.injEq _ _ ▸ hn).symm ▸ rfl

/-- C3 witness: the spec's own example input normalizes to
beach-sunset, all of whose characters are in [a-z0-9-], and the raw
input passes the auto-tag byte-length precheck. -/
theorem tagName_normalized_charset_witness :
    (normalizeTagName "  Beach Sunset  ").data.all isTagChar = true ∧
    2 ≤ goStrLen "  Beach Sunset  " :=
  ⟨(tagName_normalized_charset "  Beach Sunset  ").1,
   ((tagName_normalized_charset "  Beach Sunset  ").2.1 "beach-sunset" (by decide)).2⟩

/-- C2 counterexample: with Content-Type image/png and a URL ending in
the video suffix .mp4, both sources are present but the media kind is
"image" — the Content-Type wins for the kind, contradicting "the URL
suffix winning whenever both are present". -/
theorem mediaKind_ct_beats_url_cex :
    determineMediaType "image/png" "https://example.com/video.mp4" = "image" ∧
    ¬("image" : String) = "video" := by
  decide

/-- C2 (amended): the file extension is taken from the URL suffix
whenever the URL has one (query stripped) and falls back to the
Content-Type, defaulting to .bin when neither decides; the media kind
is one of image/video/other, but for the kind an image Content-Type
wins over any URL suffix because the image test runs first. -/
theorem mediaKind_and_extension (ct url : String) :
    (¬filepathExt url = "" → getFileExtension ct url = stripQuery (filepathExt url)) ∧
    (filepathExt url = "" →
      containsSub (lowerStr ct) "jpeg" = false → containsSub (lowerStr ct) "png" = false →
      containsSub (lowerStr ct) "gif" = false → containsSub (lowerStr ct) "webp" = false →
      containsSub (lowerStr ct) "mp4" = false → containsSub (lowerStr ct) "webm" = false →
      getFileExtension ct url = ".bin") ∧
    (containsSub (lowerStr ct) "image" = true → determineMediaType ct url = "image") ∧
    (determineMediaType ct url = "image" ∨ determineMediaType ct url = "video" ∨
      determineMediaType ct url = "other") := by
  refine ⟨?_, ?_, ?_, ?_⟩
  · intro h
    unfold getFileExtension
    simp [h]
  · intro h h1 h2 h3 h4 h5 h6
    unfold getFileExtension
    simp [h, h1, h2, h3, h4, h5, h6]
  · intro h
    unfold determineMediaType
    simp [h]
  · unfold determineMediaType
    dsimp only
    split_ifs <;> simp

/-- C2 witness: the counterexample input evaluated through the amended
statement — the extension follows the URL (.mp4) while the kind
follows the image Content-Type. -/
theorem mediaKind_and_extension_witness :
    getFileExtension "image/png" "https://example.com/video.mp4" =
      stripQuery (filepathExt "https://example.com/video.mp4") ∧
    determineMediaType "image/png" "https://example.com/video.mp4" = "image" :=
  ⟨(mediaKind_and_extension "image/png" "https://example.com/video.mp4").1 (by decide),
   (mediaKind_and_extension "image/png" "https://example.com/video.mp4").2.2.1 (by decide)⟩

/-- C1 (code bug, evaluated at the failing input): on an engine whose
FTS5 virtual-table creation fails, initSearchIndex leaves the flag
false but returns nil, and initSchema then overwrites the flag to
true — so a later nonempty search runs the MATCH query against the
missing table and fails with a generic SQL error instead of the
distinct search-unavailable error the spec (and the code's own
graceful-degradation comments) require. -/
theorem ftsFlag_overridden_after_failed_create :
    (initSearchIndex ⟨false, true, true, true, 0, [], 0⟩ false).1 = false ∧
    initSchemaFtsFlag ⟨false, true, true, true, 0, [], 0⟩ false = true ∧
    searchMedia ⟨false, true, true, true, 0, [], 0⟩
      (initSchemaFtsFlag ⟨false, true, true, true, 0, [], 0⟩ false) "cat" =
      .error .queryFailed ∧
    ¬searchMedia ⟨false, true, true, true, 0, [], 0⟩
      (initSchemaFtsFlag ⟨false, true, true, true, 0, [], 0⟩ false) "cat" =
      .error .searchUnavailable := by
  decide

/-- C5: for two DownloadMedia calls whose response bodies carry the
same bytes, under any URLs and posts, the first call (hash not yet in
the catalog, insert succeeding) writes the file and appends exactly
one media row, and the second call leaves the store untouched — no
disk write, no insert — and returns the row the first call created. -/
theorem downloadMedia_dedup
    (env : DlEnv) (baseDir : String) (s0 : Store)
    (url1 url2 : String) (pu1 pu2 : ParsedURL) (post1 post2 : PostView)
    (resp1 resp2 : HttpResponse) (b : List Nat)
    (hb1 : resp1.body = b) (hb2 : resp2.body = b)
    (hu1 : ¬url1 = "") (hv1 : validateURL pu1 = .ok ())
    (hs1 : resp1.statusCode = 200) (hc1 : contentLengthOversize resp1 = false)
    (hu2 : ¬url2 = "") (hv2 : validateURL pu2 = .ok ())
    (hs2 : resp2.statusCode = 200) (hc2 : contentLengthOversize resp2 = false)
    (hlen : b.length ≤ maxFileSize)
    (hnew : mediaExists s0 (env.hashFn b) = false)
    (hsave : env.saveOk = true) :
    ∃ row : MediaRow, row.mediaHash = env.hashFn b ∧
      downloadMedia env baseDir s0 url1 pu1 post1 resp1 =
        ({ media := s0.media ++ [row],
           disk := writeFile s0.disk row.filePath b }, .ok (some row)) ∧
      downloadMedia env baseDir (downloadMedia env baseDir s0 url1 pu1 post1 resp1).1
          url2 pu2 post2 resp2 =
        ((downloadMedia env baseDir s0 url1 pu1 post1 resp1).1, .ok (some row)) := by
  have htake1 : resp1.body.take (maxFileSize + 1) = b := by
    rw [hb1]; exact List.take_of_length_le (by omega)
  have htake2 : resp2.body.take (maxFileSize + 1) = b := by
    rw [hb2]; exact List.take_of_length_le (by omega)
  have hlen1 : ¬maxFileSize < b.length := not_lt.mpr hlen
  refine ⟨{ postId := post1.postId, postTitle := post1.postName,
            communityName := post1.communityName, communityId := post1.communityId,
            authorName := post1.creatorName, authorId := post1.creatorId,
            mediaURL := url1, mediaHash := env.hashFn b,
            fileName := mediaFileName url1 post1 resp1,
            filePath := mediaFilePath baseDir url1 post1 resp1,
            fileSize := (b.length : Int),
            mediaType := determineMediaType resp1.contentType url1,
            postURL := url1, postScore := post1.score,
            postCreated := post1.published, downloadedAt := env.now }, rfl, ?_, ?_⟩
  · unfold downloadMedia
    rw [hv1]
    simp only [hu1, if_false, ite_false, hs1, htake1, hc1, hsave, hnew]
    simp [hlen1]
  · have hfirst :
        (downloadMedia env baseDir s0 url1 pu1 post1 resp1).1 =
          { media := s0.media ++
              [{ postId := post1.postId, postTitle := post1.postName,
                 communityName := post1.communityName, communityId := post1.communityId,
                 authorName := post1.creatorName, authorId := post1.creatorId,
                 mediaURL := url1, mediaHash := env.hashFn b,
                 fileName := mediaFileName url1 post1 resp1,
                 filePath := mediaFilePath baseDir url1 post1 resp1,
                 fileSize := (b.length : Int),
                 mediaType := determineMediaType resp1.contentType url1,
                 postURL := url1, postScore := post1.score,
                 postCreated := post1.published, downloadedAt := env.now }],
            disk := writeFile s0.disk (mediaFilePath baseDir url1 post1 resp1) b } := by
      unfold downloadMedia
      rw [hv1]
      simp only [hu1, if_false, ite_false, hs1, htake1, hc1, hsave, hnew]
      simp [hlen1]
    have hfindnone :
        s0.media.find? (fun m => m.mediaHash = env.hashFn b) = none := by
      rw [List.find?_eq_none]
      intro x hx
      have := List.any_eq_false.mp hnew x hx
      simpa using this
    rw [hfirst]
    unfold downloadMedia
    rw [hv2]
    simp only [hu2, if_false, ite_false, hs2, htake2, hc2]
    have hex : mediaExists
        { media := s0.media ++
            [{ postId := post1.postId, postTitle := post1.postName,
               communityName := post1.communityName, communityId := post1.communityId,
               authorName := post1.creatorName, authorId := post1.creatorId,
               mediaURL := url1, mediaHash := env.hashFn b,
               fileName := mediaFileName url1 post1 resp1,
               filePath := mediaFilePath baseDir url1 post1 resp1,
               fileSize := (b.length : Int),
               mediaType := determineMediaType resp1.contentType url1,
               postURL := url1, postScore := post1.score,
               postCreated := post1.published, downloadedAt := env.now }],
          disk := writeFile s0.disk (mediaFilePath baseDir url1 post1 resp1) b }
        (env.hashFn b) = true := by
      unfold mediaExists
      rw [List.any_append]
      simp
    have hget : getMediaByHash
        { media := s0.media ++
            [{ postId := post1.postId, postTitle := post1.postName,
               communityName := post1.communityName, communityId := post1.communityId,
               authorName := post1.creatorName, authorId := post1.creatorId,
               mediaURL := url1, mediaHash := env.hashFn b,
               fileName := mediaFileName url1 post1 resp1,
               filePath := mediaFilePath baseDir url1 post1 resp1,
               fileSize := (b.length : Int),
               mediaType := determineMediaType resp1.contentType url1,
               postURL := url1, postScore := post1.score,
               postCreated := post1.published, downloadedAt := env.now }],
          disk := writeFile s0.disk (mediaFilePath baseDir url1 post1 resp1) b }
        (env.hashFn b) = some
          { postId := post1.postId, postTitle := post1.postName,
            communityName := post1.communityName, communityId := post1.communityId,
            authorName := post1.creatorName, authorId := post1.creatorId,
            mediaURL := url1, mediaHash := env.hashFn b,
            fileName := mediaFileName url1 post1 resp1,
            filePath := mediaFilePath baseDir url1 post1 resp1,
            fileSize := (b.length : Int),
            mediaType := determineMediaType resp1.contentType url1,
            postURL := url1, postScore := post1.score,
            postCreated := post1.published, downloadedAt := env.now } := by
      unfold getMediaByHash
      rw [List.find?_append, hfindnone]
      simp
    simp [hlen1, hex, hget]

/-- A small body is fully captured by the capped read. -/
theorem take_eq_self_of_small {b : List Nat} (h : b.length ≤ maxFileSize) :
    b.take (maxFileSize + 1) = b :=
  List.take_of_length_le (by omega)

/-- Helper: when the header guard passes and the body fits the
ceiling, no oversize error of either kind can come out of
DownloadMedia. -/
theorem downloadMedia_small_body_not_oversize
    (env : DlEnv) (baseDir : String) (s : Store) (url : String) (pu : ParsedURL)
    (post : PostView) (resp : HttpResponse)
    (hu : ¬url = "") (hv : validateURL pu = .ok ()) (hs : resp.statusCode = 200)
    (hc : contentLengthOversize resp = false)
    (hlen : resp.body.length ≤ maxFileSize) :
    ¬(downloadMedia env baseDir s url pu post resp).2 = .error .tooLarge ∧
    ¬(downloadMedia env baseDir s url pu post resp).2 = .error .tooLargeHeader := by
  have htake := take_eq_self_of_small hlen
  have hlen1 : ¬maxFileSize < resp.body.length := not_lt.mpr hlen
  unfold downloadMedia
  rw [hv]
  simp only [hu, if_false, ite_false, hs, hc, htake]
  constructor <;> · split_ifs <;> simp_all

/-- Helper: when the header guard passes but the body exceeds the
ceiling, DownloadMedia fails with the oversize error and touches
nothing. -/
theorem downloadMedia_oversize_body
    (env : DlEnv) (baseDir : String) (s : Store) (url : String) (pu : ParsedURL)
    (post : PostView) (resp : HttpResponse)
    (hu : ¬url = "") (hv : validateURL pu = .ok ()) (hs : resp.statusCode = 200)
    (hc : contentLengthOversize resp = false)
    (hbig : maxFileSize < resp.body.length) :
    downloadMedia env baseDir s url pu post resp = (s, .error .tooLarge) := by
  have htake : (resp.body.take (maxFileSize + 1)).length = maxFileSize + 1 := by
    rw [List.length_take]; omega
  unfold downloadMedia
  rw [hv]
  simp only [hu, if_false, ite_false, hs, hc, htake]
  simp

/-- C6: size-guard behavior of DownloadMedia. A parseable
Content-Length above 500 MiB fails with the header oversize error
without touching the store (the body is never consulted); otherwise
the capped reader takes at most 500 MiB + 1 bytes and the call fails
with the oversize error exactly when the body exceeds 500 MiB — a
body of exactly 500 MiB is never rejected as oversize — and an
oversize failure leaves the store unchanged, so no bytes reach disk. -/
theorem downloadMedia_size_guard
    (env : DlEnv) (baseDir : String) (s : Store) (url : String) (pu : ParsedURL)
    (post : PostView) (resp : HttpResponse)
    (hu : ¬url = "") (hv : validateURL pu = .ok ()) (hs : resp.statusCode = 200) :
    (contentLengthOversize resp = true →
      downloadMedia env baseDir s url pu post resp = (s, .error .tooLargeHeader)) ∧
    (resp.body.take (maxFileSize + 1)).length ≤ maxFileSize + 1 ∧
    (contentLengthOversize resp = false →
      ((downloadMedia env baseDir s url pu post resp).2 = .error .tooLarge ↔
        maxFileSize < resp.body.length)) ∧
    (contentLengthOversize resp = false → maxFileSize < resp.body.length →
      downloadMedia env baseDir s url pu post resp = (s, .error .tooLarge)) ∧
    (contentLengthOversize resp = false → resp.body.length = maxFileSize →
      ¬(downloadMedia env baseDir s url pu post resp).2 = .error .tooLarge ∧
      ¬(downloadMedia env baseDir s url pu post resp).2 = .error .tooLargeHeader) := by
  refine ⟨?_, ?_, ?_, ?_, ?_⟩
  · intro h
    unfold downloadMedia
    rw [hv]
    simp [hu, hs, h]
  · rw [List.length_take]
    omega
  · intro hc
    constructor
    · intro h2
      by_contra hnot
      exact (downloadMedia_small_body_not_oversize env baseDir s url pu post resp
        hu hv hs hc (not_lt.mp hnot)).1 h2
    · intro hbig
      rw [downloadMedia_oversize_body env baseDir s url pu post resp hu hv hs hc hbig]
  · intro hc hbig
    exact downloadMedia_oversize_body env baseDir s url pu post resp hu hv hs hc hbig
  · intro hc hexact
    exact downloadMedia_small_body_not_oversize env baseDir s url pu post resp
      hu hv hs hc (le_of_eq hexact)

/-- Looking up a path right after removing it finds nothing. -/
theorem diskLookup_removeFile (d : List (String × List Nat)) (p : String) :
    diskLookup (removeFile d p) p = none := by
  unfold diskLookup removeFile
  have : (d.filter (fun e => decide ¬e.1 = p)).find? (fun e => e.1 = p) = none := by
    rw [List.find?_eq_none]
    intro e he
    have := (List.mem_filter.mp he).2
    simpa using this
  rw [this]
  rfl

/-- Filtering a key out is unaffected by first overwriting the entries
carrying that key. -/
theorem filter_ne_key_map_update (t : List (String × List Nat)) (p : String) (c : List Nat) :
    (t.map (fun e => if e.1 = p then (p, c) else e)).filter (fun e => ¬e.1 = p) =
      t.filter (fun e => ¬e.1 = p) := by
  induction t with
  | nil => rfl
  | cons a t ih =>
    simp only [decide_not] at ih
    by_cases ha : a.1 = p <;> simp [ha, ih]

/-- Removing a path right after writing it is the same as removing it
from the original disk. -/
theorem removeFile_writeFile (d : List (String × List Nat)) (p : String) (c : List Nat) :
    removeFile (writeFile d p c) p = removeFile d p := by
  unfold removeFile writeFile
  split
  · exact filter_ne_key_map_update d p c
  · simp

/-- Removing an absent path is a no-op. -/
theorem removeFile_not_present (d : List (String × List Nat)) (p : String)
    (h : diskLookup d p = none) : removeFile d p = d := by
  unfold diskLookup at h
  rw [Option.map_eq_none'] at h
  have hall := List.find?_eq_none.mp h
  unfold removeFile
  rw [List.filter_eq_self]
  intro e he
  simpa using hall e he

/-- C7: when the catalog insert fails after DownloadMedia has written
the file, the written file is deleted before the error is returned:
the call reports the save failure, the path it wrote is absent from
the final disk, the media table is unchanged, and if the path did not
exist beforehand the disk is exactly as it started. -/
theorem downloadMedia_cleanup_on_save_failure
    (env : DlEnv) (baseDir : String) (s : Store) (url : String) (pu : ParsedURL)
    (post : PostView) (resp : HttpResponse)
    (hu : ¬url = "") (hv : validateURL pu = .ok ()) (hs : resp.statusCode = 200)
    (hc : contentLengthOversize resp = false)
    (hlen : resp.body.length ≤ maxFileSize)
    (hnew : mediaExists s (env.hashFn resp.body) = false)
    (hsave : env.saveOk = false) :
    downloadMedia env baseDir s url pu post resp =
      ({ media := s.media,
         disk := removeFile s.disk (mediaFilePath baseDir url post resp) },
       .error .saveFailed) ∧
    diskLookup (downloadMedia env baseDir s url pu post resp).1.disk
      (mediaFilePath baseDir url post resp) = none ∧
    (downloadMedia env baseDir s url pu post resp).1.media = s.media ∧
    (diskLookup s.disk (mediaFilePath baseDir url post resp) = none →
      (downloadMedia env baseDir s url pu post resp).1.disk = s.disk) := by
  have htake := take_eq_self_of_small hlen
  have hlen1 : ¬maxFileSize < resp.body.length := not_lt.mpr hlen
  have hmain : downloadMedia env baseDir s url pu post resp =
      ({ media := s.media,
         disk := removeFile s.disk (mediaFilePath baseDir url post resp) },
       .error .saveFailed) := by
    unfold downloadMedia
    rw [hv]
    simp only [hu, if_false, ite_false, hs, hc, htake, hnew, hsave]
    simp [hlen1, removeFile_writeFile]
  refine ⟨hmain, ?_, ?_, ?_⟩
  · rw [hmain]
    exact diskLookup_removeFile _ _
  · rw [hmain]
  · intro habsent
    rw [hmain]
    exact removeFile_not_present _ _ habsent

/-- C5 witness: the same three bytes fetched under two URLs from two
posts produce one media row; the second call returns the first call's
record and leaves the store untouched. -/
theorem downloadMedia_dedup_witness :
    ∃ row : MediaRow, row.mediaHash = testEnvOk.hashFn [1, 2, 3] ∧
      downloadMedia testEnvOk "base" ⟨[], []⟩ "https://a.com/x.jpg"
          ⟨"https", "a.com", "a.com"⟩ testPostA testRespA =
        ({ media := ([] : List MediaRow) ++ [row],
           disk := writeFile [] row.filePath [1, 2, 3] }, .ok (some row)) ∧
      downloadMedia testEnvOk "base"
          (downloadMedia testEnvOk "base" ⟨[], []⟩ "https://a.com/x.jpg"
            ⟨"https", "a.com", "a.com"⟩ testPostA testRespA).1
          "https://b.com/y.png" ⟨"https", "b.com", "b.com"⟩ testPostB testRespB =
        ((downloadMedia testEnvOk "base" ⟨[], []⟩ "https://a.com/x.jpg"
            ⟨"https", "a.com", "a.com"⟩ testPostA testRespA).1, .ok (some row)) :=
  downloadMedia_dedup testEnvOk "base" ⟨[], []⟩ "https://a.com/x.jpg" "https://b.com/y.png"
    ⟨"https", "a.com", "a.com"⟩ ⟨"https", "b.com", "b.com"⟩ testPostA testPostB
    testRespA testRespB [1, 2, 3] rfl rfl (by decide) (by decide) rfl (by decide)
    (by decide) (by decide) rfl (by decide) (by decide) rfl rfl

/-- C6 witness: a response whose Content-Length announces 600000000
bytes is rejected with the header oversize error and the store stays
empty. -/
theorem downloadMedia_size_guard_witness :
    downloadMedia testEnvOk "base" ⟨[], []⟩ "https://a.com/v.mp4"
      ⟨"https", "a.com", "a.com"⟩ testPostA testRespBig =
      (⟨[], []⟩, .error .tooLargeHeader) :=
  (downloadMedia_size_guard testEnvOk "base" ⟨[], []⟩ "https://a.com/v.mp4"
    ⟨"https", "a.com", "a.com"⟩ testPostA testRespBig
    (by decide) (by decide) rfl).1 (by decide)

/-- C7 witness: with the catalog insert failing, the concrete download
reports the save failure, the written path is gone, and the
previously empty disk is empty again. -/
theorem downloadMedia_cleanup_on_save_failure_witness :
    downloadMedia testEnvFail "base" ⟨[], []⟩ "https://a.com/x.jpg"
        ⟨"https", "a.com", "a.com"⟩ testPostA testRespA =
      ({ media := [],
         disk := removeFile []
           (mediaFilePath "base" "https://a.com/x.jpg" testPostA testRespA) },
       .error .saveFailed) ∧
    diskLookup (downloadMedia testEnvFail "base" ⟨[], []⟩ "https://a.com/x.jpg"
        ⟨"https", "a.com", "a.com"⟩ testPostA testRespA).1.disk
      (mediaFilePath "base" "https://a.com/x.jpg" testPostA testRespA) = none ∧
    (downloadMedia testEnvFail "base" ⟨[], []⟩ "https://a.com/x.jpg"
        ⟨"https", "a.com", "a.com"⟩ testPostA testRespA).1.media = ([] : List MediaRow) ∧
    (diskLookup ([] : List (String × List Nat))
        (mediaFilePath "base" "https://a.com/x.jpg" testPostA testRespA) = none →
      (downloadMedia testEnvFail "base" ⟨[], []⟩ "https://a.com/x.jpg"
        ⟨"https", "a.com", "a.com"⟩ testPostA testRespA).1.disk =
        ([] : List (String × List Nat))) :=
  downloadMedia_cleanup_on_save_failure testEnvFail "base" ⟨[], []⟩ "https://a.com/x.jpg"
    ⟨"https", "a.com", "a.com"⟩ testPostA testRespA
    (by decide) (by decide) rfl (by decide) (by decide) rfl rfl

end ClaimTheorems
